import Mathlib

/-!
Verification development for the VisionSync Sync Bridge (Roo-Code
vision-sync service).  The definitions below are a shallow embedding of the
TypeScript sources:

* the message codec of the service file (the enhanced deserializeMessage and
  validateMessage with payload-format support) and the older codec in
  message-utils.ts (the one actually imported by websocket-server.ts);
* the WebSocket connection server (handleConnection, sendMessage, broadcast,
  the inbound handleMessage path);
* the AI Bridge (convertClineMessageToVision, registerClient and history
  replay, createOrContinueTask, processAIConversation, processAskResponse)
  and the orchestrating service dispatch (handleMessage);
* the service lifecycle (start and stop).

JavaScript objects with optional fields are embedded as structures of
Option-typed fields, and JS truthiness tests are made explicit (a string is
truthy iff nonempty, a number iff nonzero, an object or array iff present).
Sources of nondeterminism (Date.now, randomUUID, the random id suffix) are
threaded as explicit parameters or counters.
-/

namespace VisionSync

/-- JS truthiness of an optional string: present and nonempty. -/
def truthyStr (o : Option String) : Bool :=
  match o with
  | some s => s ≠ ""
  | none => false

/-- JS truthiness of an optional number: present and nonzero. -/
def truthyNum (o : Option Nat) : Bool :=
  match o with
  | some n => n ≠ 0
  | none => false

/-- JS `a || d` for an optional string value with a default. -/
def jsOrStr (o : Option String) (d : String) : String :=
  match o with
  | some s => if s = "" then d else s
  | none => d

/-- A JS whitespace character (the common ones). -/
def jsWhitespace (c : Char) : Bool :=
  c = ' ' ∨ c = '\t' ∨ c = '\n' ∨ c = '\r'

/-- JS String.prototype.trim: strip whitespace from both ends. -/
def jsTrim (s : String) : String :=
  ⟨(((s.data.dropWhile jsWhitespace).reverse).dropWhile jsWhitespace).reverse⟩

/-- The payload object of a parsed inbound message.  Each field is optional
(absent means the JSON key is missing); serverInfo is an object, so only its
presence matters for truthiness. -/
structure RawPayload where
  sessionId : Option String := none
  session_id : Option String := none
  role : Option String := none
  content : Option String := none
  askResponse : Option String := none
  action : Option String := none
  message : Option String := none
  connectionId : Option String := none
  serverInfo : Bool := false
  clientType : Option String := none
  version : Option String := none
  capabilities : Option (List String) := none
deriving DecidableEq, Repr

/-- A parsed inbound JSON message (the result of JSON.parse), before
normalization and validation. -/
structure RawMessage where
  type : Option String := none
  timestamp : Option Nat := none
  id : Option String := none
  reason : Option String := none
  clientType : Option String := none
  version : Option String := none
  capabilities : Option (List String) := none
  payload : Option RawPayload := none
deriving DecidableEq, Repr

/-- The closed set of protocol message types (Object.values(VisionMessageType)). -/
def messageTypeStrings : List String :=
  ["ClientHandshake", "ConnectionAccepted", "ConnectionRejected",
   "AIConversation", "AskResponse", "TriggerSend",
   "Ping", "Pong", "Echo"]

/-- Whether a type string is a member of the closed message-type enum. -/
def knownType (t : String) : Bool :=
  messageTypeStrings.contains t

/-- validateMessage from the service file codec (the enhanced version with
payload-format handshake support and session_id fallback).  Note that the
switch has no case for AskResponse, so AskResponse falls to the default arm
and is rejected. -/
def validateMessage (m : RawMessage) : Bool :=
  if ¬ (truthyStr m.type && truthyNum m.timestamp && truthyStr m.id) then false
  else if ¬ knownType (m.type.getD "") then false
  else
    match m.type.getD "" with
    | "ClientHandshake" =>
      match m.payload with
      | some p => truthyStr p.clientType && truthyStr p.version && p.capabilities.isSome
      | none => truthyStr m.clientType && truthyStr m.version && m.capabilities.isSome
    | "ConnectionAccepted" =>
      match m.payload with
      | some p => truthyStr p.connectionId && p.serverInfo
      | none => false
    | "ConnectionRejected" => truthyStr m.reason
    | "AIConversation" =>
      match m.payload with
      | some p => (truthyStr p.sessionId || truthyStr p.session_id)
          && truthyStr p.role && truthyStr p.content
      | none => false
    | "TriggerSend" =>
      match m.payload with
      | some p => truthyStr p.sessionId && truthyStr p.action
      | none => false
    | "Echo" =>
      match m.payload with
      | some p => truthyStr p.message
      | none => false
    | "Ping" => true
    | "Pong" => true
    | _ => false

/-- validateMessage from message-utils.ts (the codec imported by
websocket-server.ts).  Differences from the enhanced version: the handshake
is validated only in top-level form, and AIConversation has no session_id
fallback.  It likewise has no AskResponse case, so AskResponse is rejected. -/
def validateMessageLegacy (m : RawMessage) : Bool :=
  if ¬ (truthyStr m.type && truthyNum m.timestamp && truthyStr m.id) then false
  else if ¬ knownType (m.type.getD "") then false
  else
    match m.type.getD "" with
    | "ClientHandshake" =>
      truthyStr m.clientType && truthyStr m.version && m.capabilities.isSome
    | "ConnectionAccepted" =>
      match m.payload with
      | some p => truthyStr p.connectionId && p.serverInfo
      | none => false
    | "ConnectionRejected" => truthyStr m.reason
    | "AIConversation" =>
      match m.payload with
      | some p => truthyStr p.sessionId && truthyStr p.role && truthyStr p.content
      | none => false
    | "TriggerSend" =>
      match m.payload with
      | some p => truthyStr p.sessionId && truthyStr p.action
      | none => false
    | "Echo" =>
      match m.payload with
      | some p => truthyStr p.message
      | none => false
    | "Ping" => true
    | "Pong" => true
    | _ => false

/-- The id string generated for an inbound message that is missing an id:
VISION_SYNC_CONSTANTS.MESSAGE.CLIENT_INFO.TYPE is the literal "visionOS" and
the suffix is Math.random().toString(36).substr(2, 9), threaded here as the
parameter rand. -/
def backfillId (now : Nat) (rand : String) : String :=
  "visionOS-" ++ toString now ++ "-" ++ rand

/-- The back-filling step of the enhanced deserializeMessage: a missing (or
zero) timestamp becomes Date.now() and a missing (or empty) id becomes the
generated template string. -/
def normalizeBase (now : Nat) (rand : String) (m : RawMessage) : RawMessage :=
  let m1 := if truthyNum m.timestamp then m else { m with timestamp := some now }
  if truthyStr m1.id then m1 else { m1 with id := some (backfillId now rand) }

/-- deserializeMessage from the service file codec (the enhanced version):
only the type is required; a missing timestamp or id is back-filled; a
ClientHandshake is normalized from either the nested payload format or the
top-level format; AIConversation's session_id is renamed to sessionId.
Date.now() is the parameter now and the random id suffix is rand. -/
def deserializeMessage (now : Nat) (rand : String) (m : RawMessage) :
    Except String RawMessage :=
  if ¬ truthyStr m.type then
    .error "Invalid message format: missing type field"
  else if ¬ knownType (m.type.getD "") then
    .error "Invalid message type"
  else
    let m2 := normalizeBase now rand m
    if m2.type = some "ClientHandshake" then
      match m2.payload with
      | some p =>
        .ok { type := m2.type, timestamp := m2.timestamp, id := m2.id,
              clientType := some (jsOrStr p.clientType "visionOS"),
              version := some (jsOrStr p.version "1.0.0"),
              capabilities := some (p.capabilities.getD []) }
      | none =>
        if truthyStr m2.clientType && truthyStr m2.version && m2.capabilities.isSome then
          .ok m2
        else
          .ok { type := m2.type, timestamp := m2.timestamp, id := m2.id,
                clientType := some "visionOS", version := some "1.0.0",
                capabilities := some [] }
    else if m2.type = some "AIConversation" then
      match m2.payload with
      | some p =>
        if truthyStr p.session_id && !truthyStr p.sessionId then
          .ok { m2 with payload := some { p with sessionId := p.session_id } }
        else .ok m2
      | none => .ok m2
    else .ok m2

/-- deserializeMessage from message-utils.ts (the codec imported by
websocket-server.ts): type, timestamp and id are all required; there is no
back-filling and no format normalization. -/
def deserializeMessageLegacy (m : RawMessage) : Except String RawMessage :=
  if ¬ (truthyStr m.type && truthyNum m.timestamp && truthyStr m.id) then
    .error "Invalid message format: missing required fields"
  else if ¬ knownType (m.type.getD "") then
    .error "Invalid message type"
  else .ok m

/-- isAIMessage from message-utils.ts: AIConversation and TriggerSend only
(AskResponse is absent from the list). -/
def isAIMessageLegacy (t : String) : Bool :=
  ["AIConversation", "TriggerSend"].contains t

/-- isAIMessage from the service file codec: AIConversation, AskResponse and
TriggerSend. -/
def isAIMessageEnhanced (t : String) : Bool :=
  ["AIConversation", "AskResponse", "TriggerSend"].contains t

/-! ## WebSocket connection server (websocket-server.ts) -/

/-- ConnectionState from types.ts. -/
inductive ConnState where
  | disconnected
  | connecting
  | connected
  | reconnecting
  | failed
deriving DecidableEq, Repr

/-- A tracked connection: the entry the server keeps in its clients map.
socketOpen models socket.readyState === WebSocket.OPEN. -/
structure TrackedConn where
  id : String
  connState : ConnState
  socketOpen : Bool
deriving DecidableEq, Repr

/-- The connection-server state: the clients map (insertion ordered) and the
configured connection cap. -/
structure WSServerState where
  clients : List TrackedConn
  maxConnections : Nat
deriving DecidableEq, Repr

/-- The observable outcome of handleConnection: the new server state, plus
the ConnectionRejected reason and the close code sent on the raw socket when
the cap is hit. -/
structure AcceptOutcome where
  server : WSServerState
  rejectReason : Option String
  closeCode : Option Nat
deriving DecidableEq, Repr

/-- handleConnection: if clients.size is at least maxConnections, send
ConnectionRejected("Server at maximum capacity") on the raw socket, close it
with code 1013 and allocate nothing; otherwise allocate a Connecting record
with an open socket and track it. -/
def handleConnection (s : WSServerState) (newId : String) : AcceptOutcome :=
  if s.maxConnections ≤ s.clients.length then
    { server := s, rejectReason := some "Server at maximum capacity",
      closeCode := some 1013 }
  else
    { server := { s with clients :=
        s.clients ++ [{ id := newId, connState := .connecting, socketOpen := true }] },
      rejectReason := none, closeCode := none }

/-- sendMessage: false when the connection is absent from the map or its
socket is not OPEN; otherwise the message is serialized and written (the
write itself is modelled as succeeding). -/
def sendMessage (s : WSServerState) (cid : String) : Bool :=
  match s.clients.find? (fun c => c.id = cid) with
  | none => false
  | some c => c.socketOpen

/-- broadcast: iterate every entry of the clients map, attempt sendMessage on
each, and return the count of successful sends. -/
def broadcast (s : WSServerState) : Nat :=
  s.clients.foldl (fun n c => if sendMessage s c.id then n + 1 else n) 0

/-- The connection ids that actually receive a broadcast: exactly those on
which sendMessage succeeds. -/
def broadcastRecipients (s : WSServerState) : List String :=
  (s.clients.filter (fun c => sendMessage s c.id)).map (fun c => c.id)

/-- Events emitted by the inbound per-connection handler. -/
inductive ServerEvent where
  | errorEvent
  | messageReceived (m : RawMessage)
deriving DecidableEq, Repr

/-- The inbound message path of websocket-server.ts handleMessage: decode
with the message-utils codec, validate; on any failure the error is caught
and an ERROR event is emitted (the frame is dropped, the connection stays);
on success MESSAGE_RECEIVED is emitted. -/
def serverHandleMessage (m : RawMessage) : List ServerEvent :=
  match deserializeMessageLegacy m with
  | .error _ => [.errorEvent]
  | .ok msg => if validateMessageLegacy msg then [.messageReceived msg] else [.errorEvent]

/-! ## AI Bridge: task-message conversion (ai-bridge, the enhanced version) -/

/-- A host task message (ClineMessage): at minimum ts, an optional id, the
kind (ask or say) with its subkind, the text, and the streaming-delta flag
(source field name: partial), modelled here as deltaFlag. -/
structure ClineMessage where
  ts : Nat
  msgId : Option String
  msgType : String
  ask : Option String
  say : Option String
  text : Option String
  deltaFlag : Option Bool
deriving DecidableEq, Repr

/-- The wire AIConversation produced by convertClineMessageToVision,
flattened: the base fields, the payload, the metadata, and the streaming
extension fields. -/
structure VisionWireMessage where
  id : String
  timestamp : Nat
  sessionId : String
  role : String
  content : String
  payloadDelta : Option Bool
  metaTimestamp : Nat
  metaMessageId : String
  metaSource : String
  metaOriginalType : String
  metaSayType : Option String
  metaAskType : Option String
  metaTaskId : Option String
  isStreaming : Bool
  isFinal : Bool
  streamId : String
  chunkIndex : Nat
deriving DecidableEq, Repr

/-- convertClineMessageToVision from the enhanced ai-bridge.  activeSessionId
is getActiveSessionId() (null when no registered client has a truthy
sessionId), taskId is provider.getCurrentTask()?.taskId, freshId is the
randomUUID() the MessageFactory draws for the base message, and now is
Date.now().  Empty-after-trim text yields null (no wire output).  The
streaming fields are isStreaming = (partial === true), isFinal = the
negation, streamId = clineMessage.id || baseMessage.id, chunkIndex = 0. -/
def convertClineMessageToVision (activeSessionId : Option String)
    (taskId : Option String) (freshId : String) (now : Nat)
    (m : ClineMessage) : Option VisionWireMessage :=
  let sessionId := jsOrStr activeSessionId "current-session"
  let role :=
    if m.msgType = "ask" then "user"
    else if m.say = some "text" ∨ m.say = some "completion_result" then "assistant"
    else if m.say = some "error" ∨ m.say = some "tool" then "system"
    else "assistant"
  let content := m.text.getD ""
  if jsTrim content = "" then none
  else
    some { id := freshId, timestamp := now, sessionId := sessionId,
           role := role, content := content, payloadDelta := m.deltaFlag,
           metaTimestamp := m.ts, metaMessageId := toString m.ts,
           metaSource := "roo-code", metaOriginalType := m.msgType,
           metaSayType := if truthyStr m.say then m.say else none,
           metaAskType := if truthyStr m.ask then m.ask else none,
           metaTaskId := if truthyStr taskId then taskId else none,
           isStreaming := m.deltaFlag = some true,
           isFinal := ¬ (m.deltaFlag = some true),
           streamId := if truthyStr m.msgId then m.msgId.getD "" else freshId,
           chunkIndex := 0 }

/-! ## AI Bridge and service dispatch state machine

A World bundles the bridge client table, the host handle (the current task
and a counter generating task ids), the recorded host-control calls, the
messageForClient events emitted so far, and a counter supplying fresh UUIDs
for wire messages. -/

/-- Number.MAX_SAFE_INTEGER, the consecutiveMistakeLimit passed to
createTask (VISION_SYNC_CONSTANTS.TASK.CONSECUTIVE_MISTAKE_LIMIT). -/
def maxSafeInteger : Nat := 9007199254740991

/-- The bridge-side client record (VisionClient of the enhanced ai-bridge). -/
structure VisionClientRec where
  connectionId : String
  connectedAt : Nat
  lastActivity : Nat
  syncedMessageCount : Nat
  currentTaskId : Option String
  sessionId : Option String
deriving DecidableEq, Repr

/-- A host task: its id and its ordered message log. -/
structure HostTask where
  taskId : String
  clineMessages : List ClineMessage
deriving DecidableEq, Repr

/-- A recorded call into the host task-control surface. -/
inductive HostCall where
  | createTask (text : String) (images : List String) (mistakeLimit : Nat)
  | handleWebviewAskResponse (askResponse : String) (text : Option String)
      (images : Option (List String))
  | postInvokePrimaryButton
  | postCancelTask
deriving DecidableEq, Repr

/-- A bridge-emitted event: a wire message targeted at one connection. -/
inductive BridgeEmit where
  | messageForClient (connectionId : String) (msg : VisionWireMessage)
deriving DecidableEq, Repr

/-- The combined bridge-plus-host state threaded through the dispatch. -/
structure World where
  bridgeClients : List (String × VisionClientRec)
  currentTask : Option HostTask
  hostCalls : List HostCall
  emits : List BridgeEmit
  taskCounter : Nat
  uuidCounter : Nat
deriving DecidableEq, Repr

/-- Map.set on the bridge client table: replace the entry if the key exists,
otherwise append. -/
def mapSet (l : List (String × VisionClientRec)) (k : String)
    (v : VisionClientRec) : List (String × VisionClientRec) :=
  if l.any (fun p => p.1 = k) then
    l.map (fun p => if p.1 = k then (k, v) else p)
  else l ++ [(k, v)]

/-- Map.get on the bridge client table. -/
def getClient (w : World) (cid : String) : Option VisionClientRec :=
  (w.bridgeClients.find? (fun p => p.1 = cid)).map (fun p => p.2)

/-- Mutate one client record in place (no effect when absent). -/
def updateClient (w : World) (cid : String)
    (f : VisionClientRec → VisionClientRec) : World :=
  { w with bridgeClients :=
      w.bridgeClients.map (fun p => if p.1 = cid then (p.1, f p.2) else p) }

/-- getActiveSessionId: the first registered client whose sessionId is
truthy, in table order. -/
def getActiveSessionId (w : World) : Option String :=
  ((w.bridgeClients.find? (fun p => truthyStr p.2.sessionId)).map
    (fun p => p.2.sessionId)).getD none

/-- A fresh wire-message UUID drawn from the counter. -/
def freshUuid (n : Nat) : String :=
  "uuid-" ++ toString n

/-- Convert one history message during replay, consuming a fresh UUID only
when the conversion produces output (the factory is only reached for
nonempty text). -/
def replayStep (now : Nat) (cid : String) (w : World) (m : ClineMessage) : World :=
  match convertClineMessageToVision (getActiveSessionId w)
      (w.currentTask.map (fun t => t.taskId)) (freshUuid w.uuidCounter) now m with
  | none => w
  | some wire =>
    { w with emits := w.emits ++ [.messageForClient cid wire],
             uuidCounter := w.uuidCounter + 1 }

/-- syncConversationHistory: replay every message currently in the current
task's log, converted like live events, to the one target connection. -/
def syncConversationHistory (now : Nat) (w : World) (cid : String) : World :=
  match w.currentTask with
  | none => w
  | some t => t.clineMessages.foldl (replayStep now cid) w

/-- registerClient of the enhanced ai-bridge: unconditionally create a fresh
client record (no existence check), store it under the connection id, and
replay the current conversation history to that connection. -/
def registerClient (now : Nat) (w : World) (cid : String) : World :=
  let rec0 : VisionClientRec :=
    { connectionId := cid, connectedAt := now, lastActivity := now,
      syncedMessageCount := 0, currentTaskId := none, sessionId := none }
  let w1 := { w with bridgeClients := mapSet w.bridgeClients cid rec0 }
  syncConversationHistory now w1 cid

/-- The result record of createOrContinueTask. -/
structure TaskResult where
  success : Bool
  taskId : Option String
deriving DecidableEq, Repr

/-- createOrContinueTask: when the sender's recorded currentTaskId is truthy
and equals the current task's taskId, continue that task through
handleWebviewAskResponse("messageResponse", content, []); otherwise create a
new task (text, no images, consecutiveMistakeLimit = MAX_SAFE_INTEGER),
make it current, and record its id on the client record. -/
def createOrContinueTask (w : World) (cid : String) (content : String) :
    World × TaskResult :=
  let clientTask := (getClient w cid).bind (fun r => r.currentTaskId)
  let isContinue :=
    truthyStr clientTask &&
      (match w.currentTask with
       | some t => clientTask = some t.taskId
       | none => false)
  if isContinue then
    ({ w with hostCalls := w.hostCalls ++
        [.handleWebviewAskResponse "messageResponse" (some content) (some [])] },
     { success := true, taskId := w.currentTask.map (fun t => t.taskId) })
  else
    let newId := "task-" ++ toString (w.taskCounter + 1)
    let w1 :=
      { w with currentTask := some { taskId := newId, clineMessages := [] },
               taskCounter := w.taskCounter + 1,
               hostCalls := w.hostCalls ++ [.createTask content [] maxSafeInteger] }
    let w2 := updateClient w1 cid (fun r => { r with currentTaskId := some newId })
    (w2, { success := true, taskId := some newId })

/-- The AIConversation acknowledgment the bridge returns to the sender,
flattened (base fields elided; metadata fields prefixed meta). -/
structure AIConvResponse where
  sessionId : String
  role : String
  content : String
  metaType : String
  metaOriginalMessageId : String
  metaTaskId : Option String
  metaSuccess : Option Bool
  metaAskResponse : Option String
deriving DecidableEq, Repr

/-- processAIConversation of the enhanced ai-bridge: update activity and the
recorded sessionId; a user message runs createOrContinueTask and is answered
with a task_created (or error) acknowledgment; other roles get a plain
acknowledgment. -/
def processAIConversation (now : Nat) (w : World) (cid : String)
    (msgId sessionId role content : String) : World × AIConvResponse :=
  let w1 := updateClient w cid (fun r => { r with lastActivity := now })
  let w2 := updateClient w1 cid (fun r => { r with sessionId := some sessionId })
  if role = "user" then
    let (w3, res) := createOrContinueTask w2 cid content
    (w3,
     { sessionId := sessionId, role := "assistant",
       content := if res.success then "Task initiated successfully" else "Error: ",
       metaType := if res.success then "task_created" else "error",
       metaOriginalMessageId := msgId, metaTaskId := res.taskId,
       metaSuccess := none, metaAskResponse := none })
  else
    (w2,
     { sessionId := sessionId, role := "assistant", content := "Message received",
       metaType := "acknowledgment", metaOriginalMessageId := msgId,
       metaTaskId := none, metaSuccess := none, metaAskResponse := none })

/-- processAskResponse of the enhanced ai-bridge: when a current task exists,
call its handleWebviewAskResponse with the supplied askResponse, text and
images (when there is none, only a warning is logged); reply with an
ask_response_result acknowledgment carrying success = true and the
askResponse. -/
def processAskResponse (w : World) (_cid : String)
    (msgId sessionId askResponse : String) (text : Option String)
    (images : Option (List String)) : World × AIConvResponse :=
  let w1 :=
    match w.currentTask with
    | some _ =>
      { w with hostCalls :=
          w.hostCalls ++ [.handleWebviewAskResponse askResponse text images] }
    | none => w
  (w1,
   { sessionId := sessionId, role := "assistant",
     content := "Ask response processed", metaType := "ask_response_result",
     metaOriginalMessageId := msgId, metaTaskId := none,
     metaSuccess := some true, metaAskResponse := some askResponse })

/-- processTriggerSend of the enhanced ai-bridge: send posts the
primary-button invoke, cancel posts cancelTask; each is acknowledged with
success = true. -/
def processTriggerSend (w : World) (_cid : String)
    (msgId sessionId action : String) : World × AIConvResponse :=
  if action = "send" then
    ({ w with hostCalls := w.hostCalls ++ [.postInvokePrimaryButton] },
     { sessionId := sessionId, role := "assistant", content := "Send action triggered",
       metaType := "trigger_result", metaOriginalMessageId := msgId,
       metaTaskId := none, metaSuccess := some true, metaAskResponse := none })
  else if action = "cancel" then
    ({ w with hostCalls := w.hostCalls ++ [.postCancelTask] },
     { sessionId := sessionId, role := "assistant", content := "Operation cancelled",
       metaType := "cancel_result", metaOriginalMessageId := msgId,
       metaTaskId := none, metaSuccess := some true, metaAskResponse := none })
  else
    (w,
     { sessionId := sessionId, role := "assistant", content := "Error processing trigger: ",
       metaType := "error", metaOriginalMessageId := msgId,
       metaTaskId := none, metaSuccess := none, metaAskResponse := none })

/-- An inbound message after decode and validation, as the service dispatch
sees it. -/
inductive ParsedMessage where
  | aiConversation (id sessionId role content : String)
  | askResponse (id sessionId askResponse : String) (text : Option String)
      (images : Option (List String))
  | triggerSend (id sessionId action : String)
  | otherType (typeName : String)
deriving DecidableEq, Repr

/-- The protocol type tag of a parsed message. -/
def ParsedMessage.typeName : ParsedMessage → String
  | .aiConversation _ _ _ _ => "AIConversation"
  | .askResponse _ _ _ _ _ => "AskResponse"
  | .triggerSend _ _ _ => "TriggerSend"
  | .otherType t => t

/-- handleMessage of vision-sync-service.ts: for a tracked connection, if the
message is AI-typed per the imported message-utils isAIMessage (which does
not list AskResponse), first call registerClient, then dispatch: an
AIConversation to processAIConversation, a TriggerSend to processTriggerSend,
anything else is only logged and gets no response.  The returned response,
when present, is sent back on the originating connection. -/
def serviceHandleMessage (now : Nat) (w : World) (cid : String)
    (msg : ParsedMessage) : World × Option AIConvResponse :=
  if isAIMessageLegacy msg.typeName then
    let w1 := registerClient now w cid
    match msg with
    | .aiConversation id sessionId role content =>
      let (w2, r) := processAIConversation now w1 cid id sessionId role content
      (w2, some r)
    | .triggerSend id sessionId action =>
      let (w2, r) := processTriggerSend w1 cid id sessionId action
      (w2, some r)
    | _ => (w1, none)
  else (w, none)

/-! ## Sync Service lifecycle (vision-sync-service.ts start and stop) -/

/-- The lifecycle-relevant state of a VisionSyncService instance: the running
flag, whether each subordinate server is listening, and whether the hourly
cleanup timer is installed. -/
structure SyncState where
  isRunning : Bool
  wsListening : Bool
  discoveryListening : Bool
  cleanupTimer : Bool
deriving DecidableEq, Repr

/-- A freshly constructed service: nothing running. -/
def initSyncState : SyncState :=
  { isRunning := false, wsListening := false,
    discoveryListening := false, cleanupTimer := false }

/-- stop(): when isRunning is false it returns immediately with no effect at
all; otherwise it clears the cleanup timer, stops both servers and resets
the state. -/
def stopService (s : SyncState) : SyncState :=
  if s.isRunning = false then s
  else { isRunning := false, wsListening := false,
         discoveryListening := false, cleanupTimer := false }

/-- The environment of one start() call: whether the dynamic port scans
succeed.  The later steps of start() are unreachable in the source: right
after the port scan, setupWebSocketEventHandlers runs the mis-typed chain
(this.websocketServer as any).on(...)(this.websocketServer as any).on(...),
which calls the EventEmitter returned by the first .on as a function and
throws a TypeError on every call. -/
structure StartEnv where
  wsPortFound : Bool
  discoveryPortFound : Bool
deriving DecidableEq, Repr

/-- The outcome of start(): success, or the rethrown error. -/
inductive StartOutcome where
  | ok
  | error (msg : String)
deriving DecidableEq, Repr

/-- start(): reject when already running; throw when no port is found; and
otherwise throw the TypeError from the mis-typed handler chain.  Every throw
is caught, stop() is invoked (a no-op here, since isRunning is still false),
and the error is rethrown to the caller. -/
def startService (env : StartEnv) (s : SyncState) : SyncState × StartOutcome :=
  if s.isRunning then (s, .error "VisionSync service is already running")
  else if ¬ (env.wsPortFound && env.discoveryPortFound) then
    (stopService s, .error "Unable to find available ports")
  else
    (stopService s, .error "TypeError: is not a function")

/-! ## Shared concrete fixtures and helper lemmas -/

/-- The hexadecimal digit characters: 0-9, a-f, A-F. -/
def hexChars : List Char :=
  (List.range 10).map (fun n => Char.ofNat (48 + n)) ++
  (List.range 6).map (fun n => Char.ofNat (97 + n)) ++
  (List.range 6).map (fun n => Char.ofNat (65 + n))

/-- A hexadecimal digit. -/
def isHexDigit (c : Char) : Bool :=
  hexChars.contains c

/-- Following the specification's words only (for comparison with the code):
the shape of a fresh UUID as produced by randomUUID — 36 characters with
hyphens at positions 8, 13, 18 and 23 and hex digits everywhere else. -/
def specUUIDFormat (s : String) : Bool :=
  s.length = 36 &&
  (List.range 36).all (fun i =>
    let c := s.data.getD i ' '
    if i = 8 ∨ i = 13 ∨ i = 18 ∨ i = 23 then c = '-' else isHexDigit c)

/-- The details a ClientHandshake can carry, each field possibly missing. -/
structure HandshakeContent where
  clientType : Option String
  version : Option String
  capabilities : Option (List String)
deriving DecidableEq, Repr

/-- The top-level (direct) wire encoding of a handshake content. -/
def encodeHandshakeTopLevel (ts : Nat) (mid : String) (c : HandshakeContent) :
    RawMessage :=
  { type := some "ClientHandshake", timestamp := some ts, id := some mid,
    clientType := c.clientType, version := c.version,
    capabilities := c.capabilities }

/-- The nested wire encoding of the same handshake content, with the details
under payload. -/
def encodeHandshakeNested (ts : Nat) (mid : String) (c : HandshakeContent) :
    RawMessage :=
  { type := some "ClientHandshake", timestamp := some ts, id := some mid,
    payload := some { clientType := c.clientType, version := c.version,
                      capabilities := c.capabilities } }

/-- A task message carrying its own id, used as a witness input. -/
def mK : ClineMessage :=
  { ts := 100, msgId := some "k1", msgType := "say", ask := none,
    say := some "text", text := some "Hi", deltaFlag := some true }

/-- The wire message the conversion produces for mK. -/
def wK : VisionWireMessage :=
  { id := "u0", timestamp := 1, sessionId := "current-session",
    role := "assistant", content := "Hi", payloadDelta := some true,
    metaTimestamp := 100, metaMessageId := "100", metaSource := "roo-code",
    metaOriginalType := "say", metaSayType := some "text", metaAskType := none,
    metaTaskId := none, isStreaming := true, isFinal := false,
    streamId := "k1", chunkIndex := 0 }

/-- A fresh world: no bridge clients, no current task. -/
def emptyWorld : World :=
  { bridgeClients := [], currentTask := none, hostCalls := [], emits := [],
    taskCounter := 0, uuidCounter := 0 }

/-- One history message of the pre-existing task task-0. -/
def histMsg : ClineMessage :=
  { ts := 100, msgId := some "k1", msgType := "say", ask := none,
    say := some "text", text := some "Hi", deltaFlag := none }

/-- A world whose current task already holds one message. -/
def worldWithHistory : World :=
  { bridgeClients := [], currentTask := some { taskId := "task-0", clineMessages := [histMsg] },
    hostCalls := [], emits := [], taskCounter := 0, uuidCounter := 0 }

/-- A world with a registered client c1 driving the current task task-1. -/
def worldWithTask : World :=
  { bridgeClients := [("c1",
      { connectionId := "c1", connectedAt := 0, lastActivity := 0,
        syncedMessageCount := 0, currentTaskId := some "task-1",
        sessionId := some "s1" })],
    currentTask := some { taskId := "task-1", clineMessages := [] },
    hostCalls := [], emits := [], taskCounter := 1, uuidCounter := 0 }

/-- A fully populated AskResponse frame. -/
def askRaw : RawMessage :=
  { type := some "AskResponse", timestamp := some 1, id := some "m9",
    payload := some { sessionId := some "s1", askResponse := some "yesButtonClicked" } }

/-- A server at capacity: one tracked connection, maxConnections = 1. -/
def fullServer : WSServerState :=
  { clients := [{ id := "c1", connState := .connected, socketOpen := true }],
    maxConnections := 1 }

/-- A server tracking one connection that has not completed its handshake
(state Connecting) but whose socket is open. -/
def connectingOnlyServer : WSServerState :=
  { clients := [{ id := "c1", connState := .connecting, socketOpen := true }],
    maxConnections := 10 }

/-- An Echo frame missing its id field. -/
def echoNoId : RawMessage :=
  { type := some "Echo", timestamp := some 7,
    payload := some { message := some "hi" } }

/-- An Echo frame whose payload.message is present but the empty string. -/
def echoEmpty : RawMessage :=
  { type := some "Echo", timestamp := some 1, id := some "x",
    payload := some { message := some "" } }

/-- An AIConversation frame whose payload.content is the empty string. -/
def aiEmptyContent : RawMessage :=
  { type := some "AIConversation", timestamp := some 1, id := some "x",
    payload := some { sessionId := some "s", role := some "user", content := some "" } }

/-- A Ping frame whose timestamp field is present but zero. -/
def tsZeroPing : RawMessage :=
  { type := some "Ping", timestamp := some 0, id := some "x" }

/-- A nonempty-string-prepended string is nonempty: the generated backfill id
is never the empty string. -/
theorem backfillId_ne_empty (now : Nat) (rand : String) :
    backfillId now rand ≠ "" := by
  intro h
  have h2 := congrArg String.data h
  simp only [backfillId] at h2
  rw [String.data_append, String.data_append] at h2
  simp at h2

/-- In a list of connections with pairwise distinct ids, searching for the id
of a member finds exactly that member. -/
theorem find_id_of_mem_nodup (l : List TrackedConn) (c : TrackedConn)
    (hmem : c ∈ l) (hnd : (l.map (fun x => x.id)).Nodup) :
    l.find? (fun x => x.id = c.id) = some c := by
  induction l with
  | nil => cases hmem
  | cons a t ih =>
    simp only [List.map_cons, List.nodup_cons] at hnd
    rcases List.mem_cons.mp hmem with h | h
    · subst h
      simp [List.find?]
    · have hne : a.id ≠ c.id := by
        intro he
        exact hnd.1 (he ▸ List.mem_map_of_mem (fun x => x.id) h)
      simp only [List.find?, decide_eq_false hne]
      exact ih h hnd.2

/-- Counting fold: the broadcast loop counts exactly the entries on which the
send succeeds. -/
theorem foldl_count (p : TrackedConn → Bool) (l : List TrackedConn) (n : Nat) :
    l.foldl (fun k c => if p c then k + 1 else k) n = n + (l.filter p).length := by
  induction l generalizing n with
  | nil => simp
  | cons a t ih =>
    by_cases h : p a
    · simp [List.foldl, h, ih, List.filter]
      omega
    · simp [List.foldl, h, ih, List.filter]

/-- One replay step only appends an emitted event and advances the UUID
counter; the client table, the host task, the recorded host calls and the
task counter are untouched. -/
theorem replayStep_preserves (now : Nat) (cid : String) (w : World)
    (m : ClineMessage) :
    (replayStep now cid w m).bridgeClients = w.bridgeClients ∧
    (replayStep now cid w m).currentTask = w.currentTask ∧
    (replayStep now cid w m).hostCalls = w.hostCalls ∧
    (replayStep now cid w m).taskCounter = w.taskCounter := by
  unfold replayStep
  cases convertClineMessageToVision (getActiveSessionId w)
      (w.currentTask.map (fun t => t.taskId)) (freshUuid w.uuidCounter) now m with
  | none => exact ⟨rfl, rfl, rfl, rfl⟩
  | some wire => exact ⟨rfl, rfl, rfl, rfl⟩

/-- Folding replay steps over a message list preserves the same components. -/
theorem foldl_replayStep_preserves (now : Nat) (cid : String)
    (msgs : List ClineMessage) (w : World) :
    (msgs.foldl (replayStep now cid) w).bridgeClients = w.bridgeClients ∧
    (msgs.foldl (replayStep now cid) w).currentTask = w.currentTask ∧
    (msgs.foldl (replayStep now cid) w).hostCalls = w.hostCalls ∧
    (msgs.foldl (replayStep now cid) w).taskCounter = w.taskCounter := by
  induction msgs generalizing w with
  | nil => exact ⟨rfl, rfl, rfl, rfl⟩
  | cons m ms ih =>
    obtain ⟨s1, s2, s3, s4⟩ := replayStep_preserves now cid w m
    obtain ⟨i1, i2, i3, i4⟩ := ih (replayStep now cid w m)
    exact ⟨i1.trans s1, i2.trans s2, i3.trans s3, i4.trans s4⟩

/-- History replay preserves the client table, the current task, the host
calls and the task counter. -/
theorem syncHistory_preserves (now : Nat) (w : World) (cid : String) :
    (syncConversationHistory now w cid).bridgeClients = w.bridgeClients ∧
    (syncConversationHistory now w cid).currentTask = w.currentTask ∧
    (syncConversationHistory now w cid).hostCalls = w.hostCalls ∧
    (syncConversationHistory now w cid).taskCounter = w.taskCounter := by
  unfold syncConversationHistory
  cases h : w.currentTask with
  | none => exact ⟨rfl, h, rfl, rfl⟩
  | some t =>
    obtain ⟨a, b, c, d⟩ := foldl_replayStep_preserves now cid t.clineMessages w
    exact ⟨a, b.trans h, c, d⟩

/-- registerClient stores the fresh record under the connection id and
changes nothing else in the table shape, the current task, the host calls or
the task counter. -/
theorem registerClient_state (now : Nat) (w : World) (cid : String) :
    (registerClient now w cid).bridgeClients =
      mapSet w.bridgeClients cid
        ({ connectionId := cid, connectedAt := now, lastActivity := now,
           syncedMessageCount := 0, currentTaskId := none, sessionId := none }) ∧
    (registerClient now w cid).currentTask = w.currentTask ∧
    (registerClient now w cid).hostCalls = w.hostCalls ∧
    (registerClient now w cid).taskCounter = w.taskCounter := by
  obtain ⟨h1, h2, h3, h4⟩ := syncHistory_preserves now
    ({ w with
        bridgeClients :=
          mapSet w.bridgeClients cid
            ({ connectionId := cid, connectedAt := now, lastActivity := now,
               syncedMessageCount := 0, currentTaskId := none,
               sessionId := none }) })
    cid
  exact ⟨h1, h2, h3, h4⟩

/-- Searching a replace-mapped table for the replaced key finds the new
entry, provided the key was present. -/
theorem find_map_replace (l : List (String × VisionClientRec)) (k : String)
    (v : VisionClientRec) (h : l.any (fun p => p.1 = k) = true) :
    (l.map (fun p => if p.1 = k then (k, v) else p)).find?
      (fun p => p.1 = k) = some (k, v) := by
  induction l with
  | nil => simp at h
  | cons a t ih =>
    by_cases ha : a.1 = k
    · simp [ha, List.find?]
    · simp only [List.any_cons, Bool.or_eq_true, decide_eq_true_eq] at h
      rcases h with h | h
      · exact absurd h ha
      · simp only [List.map_cons, if_neg ha, List.find?, decide_eq_false ha]
        exact ih h

/-- Searching an appended table for an absent key finds the appended entry. -/
theorem find_append_single (l : List (String × VisionClientRec)) (k : String)
    (v : VisionClientRec) (h : l.any (fun p => p.1 = k) = false) :
    (l ++ [(k, v)]).find? (fun p => p.1 = k) = some (k, v) := by
  induction l with
  | nil => simp [List.find?]
  | cons a t ih =>
    simp only [List.any_cons, Bool.or_eq_false_iff, decide_eq_false_iff_not] at h
    simp only [List.cons_append, List.find?, decide_eq_false h.1]
    exact ih (by simpa using h.2)

/-- Map.set followed by a lookup of the same key yields the stored value. -/
theorem find_mapSet (l : List (String × VisionClientRec)) (k : String)
    (v : VisionClientRec) :
    (mapSet l k v).find? (fun p => p.1 = k) = some (k, v) := by
  unfold mapSet
  cases h : l.any (fun p => p.1 = k) with
  | true => exact find_map_replace l k v h
  | false => exact find_append_single l k v h

/-- A per-key update commutes with the lookup of that key. -/
theorem find_update (l : List (String × VisionClientRec)) (k : String)
    (f : VisionClientRec → VisionClientRec) :
    (l.map (fun p => if p.1 = k then (p.1, f p.2) else p)).find?
      (fun p => p.1 = k) =
      (l.find? (fun p => p.1 = k)).map (fun p => (p.1, f p.2)) := by
  induction l with
  | nil => rfl
  | cons a t ih =>
    by_cases ha : a.1 = k
    · simp [List.find?, ha]
    · simp only [List.map_cons, if_neg ha, List.find?, decide_eq_false ha]
      exact ih

/-- getClient after updateClient of the same connection applies the update
to the looked-up record. -/
theorem getClient_updateClient (w : World) (cid : String)
    (f : VisionClientRec → VisionClientRec) :
    getClient (updateClient w cid f) cid = (getClient w cid).map f := by
  unfold getClient updateClient
  simp only [find_update]
  cases w.bridgeClients.find? (fun p => p.1 = cid) <;> rfl

/-- getClient right after registerClient returns the fresh record: in
particular its currentTaskId is reset to none. -/
theorem getClient_registerClient (now : Nat) (w : World) (cid : String) :
    getClient (registerClient now w cid) cid =
      some { connectionId := cid, connectedAt := now, lastActivity := now,
             syncedMessageCount := 0, currentTaskId := none, sessionId := none } := by
  unfold getClient
  rw [(registerClient_state now w cid).1, find_mapSet]
  rfl

/-- The create branch of createOrContinueTask, named for use in theorem
statements (it duplicates the else branch of the source verbatim): the new
task becomes current, createTask(content, [], MAX_SAFE_INTEGER) is recorded,
and the client record is pointed at the new task. -/
def createBranch (w : World) (cid : String) (content : String) :
    World × TaskResult :=
  let newId := "task-" ++ toString (w.taskCounter + 1)
  let w1 :=
    { w with currentTask := some { taskId := newId, clineMessages := [] },
             taskCounter := w.taskCounter + 1,
             hostCalls := w.hostCalls ++ [.createTask content [] maxSafeInteger] }
  let w2 := updateClient w1 cid (fun r => { r with currentTaskId := some newId })
  (w2, { success := true, taskId := some newId })

/-- The create branch records exactly one more createTask call. -/
theorem createBranch_hostCalls (w : World) (cid content : String) :
    (createBranch w cid content).1.hostCalls =
      w.hostCalls ++ [.createTask content [] maxSafeInteger] := rfl

/-- The create branch makes the freshly numbered task current. -/
theorem createBranch_currentTask (w : World) (cid content : String) :
    (createBranch w cid content).1.currentTask =
      some { taskId := "task-" ++ toString (w.taskCounter + 1),
             clineMessages := [] } := rfl

/-- The create branch points the sender's client record at the new task. -/
theorem createBranch_getClient (w : World) (cid content : String) :
    getClient (createBranch w cid content).1 cid =
      (getClient w cid).map (fun r =>
        { r with currentTaskId := some ("task-" ++ toString (w.taskCounter + 1)) }) := by
  unfold createBranch
  rw [getClient_updateClient]
  rfl

/-! ## Claim theorems -/

/-- C1, counterexample: the streamId is not stable across updates of one
logical task message when the task message carries no id.  Two updates of
the same logical message (same ts, id absent) convert to wires whose
streamIds are the two distinct fresh wire ids, so the claim that every wire
for those events carries the same streamId is false. -/
theorem streamId_not_stable_without_task_message_id :
    (convertClineMessageToVision none none "uuid-0" 1
      { ts := 100, msgId := none, msgType := "say", ask := none,
        say := some "text", text := some "Hel", deltaFlag := some true }).map
      (fun w => w.streamId) = some "uuid-0" ∧
    (convertClineMessageToVision none none "uuid-1" 2
      { ts := 100, msgId := none, msgType := "say", ask := none,
        say := some "text", text := some "Hello.", deltaFlag := some false }).map
      (fun w => w.streamId) = some "uuid-1" ∧
    (("uuid-0" : String) == "uuid-1") = false := by
  decide

/-- C1, amended: when the task message carries a nonempty id k, every wire
the conversion produces has streamId = k (hence all updates of that logical
message share one streamId), with isStreaming true exactly when partial is
true and isFinal its negation. -/
theorem streamId_stable_when_task_message_has_id
    (sess tid : Option String) (fid : String) (now : Nat) (m : ClineMessage)
    (k : String) (hk : m.msgId = some k) (hne : k ≠ "")
    (w : VisionWireMessage)
    (hw : convertClineMessageToVision sess tid fid now m = some w) :
    w.streamId = k ∧ (w.isStreaming = true ↔ m.deltaFlag = some true) ∧
      w.isFinal = !w.isStreaming := by
  unfold convertClineMessageToVision at hw
  by_cases hc : jsTrim (m.text.getD "") = ""
  · simp [hc] at hw
  · simp only [hc, if_false, Option.some_inj] at hw
    subst hw
    refine ⟨?_, ?_, ?_⟩
    · simp [hk, truthyStr, hne]
    · simp
    · simp [decide_not]

/-- C1 witness: the amended theorem applied at a concrete streaming delta
with its own id. -/
theorem streamId_stable_when_task_message_has_id_witness :
    wK.streamId = "k1" ∧ (wK.isStreaming = true ↔ mK.deltaFlag = some true) ∧
      wK.isFinal = !wK.isStreaming :=
  streamId_stable_when_task_message_has_id none none "u0" 1 mK "k1" rfl
    (by decide) wK rfl

/-- C2, counterexample: the claim's conclusion fails on the code.  After
client c1's first user message has created task-1 — recorded on c1's client
record and current on the host, so the second message arrives while c1's
task is still the host's current task — a second user message from c1 does
not continue task-1: the host receives a second createTask call (the
recorded call list holds exactly the two createTask calls and no
handleWebviewAskResponse), and the current task becomes task-2. -/
theorem second_user_message_not_continued :
    (serviceHandleMessage 10 emptyWorld "c1"
        (.aiConversation "m1" "s1" "user" "hello")).1.currentTask =
      some { taskId := "task-1", clineMessages := [] } ∧
    (getClient (serviceHandleMessage 10 emptyWorld "c1"
        (.aiConversation "m1" "s1" "user" "hello")).1 "c1").bind
      (fun r => r.currentTaskId) = some "task-1" ∧
    (serviceHandleMessage 20
        (serviceHandleMessage 10 emptyWorld "c1"
          (.aiConversation "m1" "s1" "user" "hello")).1 "c1"
        (.aiConversation "m2" "s1" "user" "again")).1.hostCalls =
      [.createTask "hello" [] maxSafeInteger, .createTask "again" [] maxSafeInteger] ∧
    (serviceHandleMessage 20
        (serviceHandleMessage 10 emptyWorld "c1"
          (.aiConversation "m1" "s1" "user" "hello")).1 "c1"
        (.aiConversation "m2" "s1" "user" "again")).1.currentTask =
      some { taskId := "task-2", clineMessages := [] } := by
  decide

/-- C2, amended: createOrContinueTask continues the host's current task via
handleWebviewAskResponse("messageResponse", content, []) when the client
record it reads carries a nonempty currentTaskId equal to the current task's
taskId, and takes the create branch (new task with the content, empty
images, consecutiveMistakeLimit = MAX_SAFE_INTEGER, new taskId recorded on
the client record) in every other case: recorded id missing or empty,
recorded id different from the current task's, or no current task.  On the
service dispatch path, however, handleMessage re-registers the client first,
resetting its recorded currentTaskId, so a user AIConversation always takes
the create branch: the host receives exactly one more createTask call, the
new task becomes current, and the recreated client record points at it —
hence a second user message starts another task instead of continuing. -/
theorem user_message_dispatch_always_creates (now : Nat) (w : World)
    (cid mid sid content : String) :
    (∀ (w2 : World) (t : HostTask), w2.currentTask = some t →
      (getClient w2 cid).bind (fun r => r.currentTaskId) = some t.taskId →
      t.taskId ≠ "" →
      createOrContinueTask w2 cid content =
        ({ w2 with hostCalls := w2.hostCalls ++
            [.handleWebviewAskResponse "messageResponse" (some content) (some [])] },
         { success := true, taskId := some t.taskId })) ∧
    (∀ w2 : World,
      truthyStr ((getClient w2 cid).bind (fun r => r.currentTaskId)) = false →
      createOrContinueTask w2 cid content = createBranch w2 cid content) ∧
    (∀ (w2 : World) (t : HostTask), w2.currentTask = some t →
      ¬ (getClient w2 cid).bind (fun r => r.currentTaskId) = some t.taskId →
      createOrContinueTask w2 cid content = createBranch w2 cid content) ∧
    (∀ w2 : World, w2.currentTask = none →
      createOrContinueTask w2 cid content = createBranch w2 cid content) ∧
    (serviceHandleMessage now w cid
        (.aiConversation mid sid "user" content)).1.hostCalls =
      w.hostCalls ++ [.createTask content [] maxSafeInteger] ∧
    (serviceHandleMessage now w cid
        (.aiConversation mid sid "user" content)).1.currentTask =
      some { taskId := "task-" ++ toString (w.taskCounter + 1),
             clineMessages := [] } ∧
    (getClient (serviceHandleMessage now w cid
        (.aiConversation mid sid "user" content)).1 cid).map
      (fun r => r.currentTaskId) =
      some (some ("task-" ++ toString (w.taskCounter + 1))) := by
  have hcontinue : ∀ (w2 : World) (t : HostTask), w2.currentTask = some t →
      (getClient w2 cid).bind (fun r => r.currentTaskId) = some t.taskId →
      t.taskId ≠ "" →
      createOrContinueTask w2 cid content =
        ({ w2 with hostCalls := w2.hostCalls ++
            [.handleWebviewAskResponse "messageResponse" (some content) (some [])] },
         { success := true, taskId := some t.taskId }) := by
    intro w2 t h1 h2 h3
    simp only [createOrContinueTask]
    rw [h2, h1]
    simp [truthyStr, h3]
  have hcreate1 : ∀ w2 : World,
      truthyStr ((getClient w2 cid).bind (fun r => r.currentTaskId)) = false →
      createOrContinueTask w2 cid content = createBranch w2 cid content := by
    intro w2 h
    simp only [createOrContinueTask, createBranch]
    rw [h]
    simp
  have hcreate2 : ∀ (w2 : World) (t : HostTask), w2.currentTask = some t →
      ¬ (getClient w2 cid).bind (fun r => r.currentTaskId) = some t.taskId →
      createOrContinueTask w2 cid content = createBranch w2 cid content := by
    intro w2 t h1 h2
    simp only [createOrContinueTask, createBranch]
    rw [h1]
    simp [h2]
  have hcreate3 : ∀ w2 : World, w2.currentTask = none →
      createOrContinueTask w2 cid content = createBranch w2 cid content := by
    intro w2 h
    simp only [createOrContinueTask, createBranch]
    rw [h]
    simp
  -- the world createOrContinueTask actually sees on the service path
  have hgc3 : getClient (updateClient (updateClient (registerClient now w cid)
        cid (fun r => { r with lastActivity := now }))
        cid (fun r => { r with sessionId := some sid })) cid =
      some { connectionId := cid, connectedAt := now, lastActivity := now,
             syncedMessageCount := 0, currentTaskId := none,
             sessionId := some sid } := by
    rw [getClient_updateClient, getClient_updateClient,
        getClient_registerClient now w cid]
    rfl
  have htr : truthyStr ((getClient (updateClient (updateClient
        (registerClient now w cid)
        cid (fun r => { r with lastActivity := now }))
        cid (fun r => { r with sessionId := some sid })) cid).bind
      (fun r => r.currentTaskId)) = false := by
    rw [hgc3]
    rfl
  have hrun1 : (serviceHandleMessage now w cid
        (.aiConversation mid sid "user" content)).1 =
      (createOrContinueTask (updateClient (updateClient (registerClient now w cid)
        cid (fun r => { r with lastActivity := now }))
        cid (fun r => { r with sessionId := some sid })) cid content).1 := rfl
  have hcc := hcreate1 _ htr
  have hreg := registerClient_state now w cid
  have hhc : (updateClient (updateClient (registerClient now w cid)
        cid (fun r => { r with lastActivity := now }))
        cid (fun r => { r with sessionId := some sid })).hostCalls =
      w.hostCalls := hreg.2.2.1
  have htc : (updateClient (updateClient (registerClient now w cid)
        cid (fun r => { r with lastActivity := now }))
        cid (fun r => { r with sessionId := some sid })).taskCounter =
      w.taskCounter := hreg.2.2.2
  refine ⟨hcontinue, hcreate1, hcreate2, hcreate3, ?_, ?_, ?_⟩
  · rw [hrun1, hcc, createBranch_hostCalls, hhc]
  · rw [hrun1, hcc, createBranch_currentTask, htc]
  · rw [hrun1, hcc, createBranch_getClient, hgc3, htc]
    rfl

/-- C2 witness: the amended theorem applied concretely — the continue branch
fires for a client record pointing at the current task task-1, and the
service path on a fresh world records exactly one createTask call. -/
theorem user_message_dispatch_always_creates_witness :
    createOrContinueTask worldWithTask "c1" "more" =
      ({ worldWithTask with hostCalls := worldWithTask.hostCalls ++
          [.handleWebviewAskResponse "messageResponse" (some "more") (some [])] },
       { success := true, taskId := some "task-1" }) ∧
    (serviceHandleMessage 10 emptyWorld "c1"
        (.aiConversation "m1" "s1" "user" "hello")).1.hostCalls =
      emptyWorld.hostCalls ++ [.createTask "hello" [] maxSafeInteger] :=
  ⟨(user_message_dispatch_always_creates 10 worldWithTask "c1" "m0" "s1" "more").1
      worldWithTask { taskId := "task-1", clineMessages := [] } rfl (by decide)
      (by decide),
   (user_message_dispatch_always_creates 10 emptyWorld "c1" "m1" "s1"
      "hello").2.2.2.2.1⟩

/-- C3, code divergence: registration is not idempotent.  A second AI-typed
message from the already-registered connection c1 recreates the client
record (its connectedAt jumps from the first registration time 10 to the
second one 20) and replays the one-message history a second time: after two
AI-typed messages the bridge has emitted the converted history message to c1
twice. -/
theorem reregistration_replays_history_and_recreates_record :
    (serviceHandleMessage 10 worldWithHistory "c1"
        (.aiConversation "mA" "sA" "assistant" "x")).1.emits.length = 1 ∧
    getClient (serviceHandleMessage 10 worldWithHistory "c1"
        (.aiConversation "mA" "sA" "assistant" "x")).1 "c1" =
      some { connectionId := "c1", connectedAt := 10, lastActivity := 10,
             syncedMessageCount := 0, currentTaskId := none,
             sessionId := some "sA" } ∧
    (serviceHandleMessage 20
        (serviceHandleMessage 10 worldWithHistory "c1"
          (.aiConversation "mA" "sA" "assistant" "x")).1 "c1"
        (.aiConversation "mB" "sB" "assistant" "y")).1.emits.map
      (fun e => match e with
        | .messageForClient cid w => (cid, w.streamId, w.content)) =
      [("c1", "k1", "Hi"), ("c1", "k1", "Hi")] ∧
    getClient (serviceHandleMessage 20
        (serviceHandleMessage 10 worldWithHistory "c1"
          (.aiConversation "mA" "sA" "assistant" "x")).1 "c1"
        (.aiConversation "mB" "sB" "assistant" "y")).1 "c1" =
      some { connectionId := "c1", connectedAt := 20, lastActivity := 20,
             syncedMessageCount := 0, currentTaskId := none,
             sessionId := some "sB" } := by
  decide

/-- C4, code divergence: a fully populated AskResponse frame fails both
validators (neither switch has an AskResponse case), so the connection
handler drops it with an ERROR event; even as a parsed message the service
dispatch ignores it (the imported isAIMessage does not list AskResponse and
handleMessage has no AskResponse branch), leaving the world untouched and
returning no reply.  The bridge method processAskResponse would do what the
claim says — it records the handleWebviewAskResponse call and replies with
an ask_response_result acknowledgment — but nothing ever calls it. -/
theorem askResponse_dropped_and_unrouted :
    validateMessage askRaw = false ∧
    validateMessageLegacy askRaw = false ∧
    serverHandleMessage askRaw = [.errorEvent] ∧
    serviceHandleMessage 30 worldWithTask "c1"
      (.askResponse "m9" "s1" "yesButtonClicked" none none) = (worldWithTask, none) ∧
    (processAskResponse worldWithTask "c1" "m9" "s1" "yesButtonClicked"
        none none).1.hostCalls =
      [.handleWebviewAskResponse "yesButtonClicked" none none] ∧
    (processAskResponse worldWithTask "c1" "m9" "s1" "yesButtonClicked"
        none none).2 =
      { sessionId := "s1", role := "assistant",
        content := "Ask response processed", metaType := "ask_response_result",
        metaOriginalMessageId := "m9", metaTaskId := none,
        metaSuccess := some true, metaAskResponse := some "yesButtonClicked" } := by
  decide

/-- C5: when the tracked-connection count has reached maxConnections, an
arriving socket is answered with ConnectionRejected("Server at maximum
capacity") and closed with code 1013 and no record is allocated (the state
is unchanged); and handleConnection preserves the bound, so the number of
tracked connections never exceeds maxConnections. -/
theorem capacity_reject_and_connection_bound (s : WSServerState) (newId : String) :
    (s.maxConnections ≤ s.clients.length →
      handleConnection s newId =
        { server := s, rejectReason := some "Server at maximum capacity",
          closeCode := some 1013 }) ∧
    (s.clients.length ≤ s.maxConnections →
      (handleConnection s newId).server.clients.length ≤ s.maxConnections) := by
  constructor
  · intro h
    simp [handleConnection, h]
  · intro h
    by_cases hc : s.maxConnections ≤ s.clients.length
    · simp [handleConnection, hc]
      omega
    · simp [handleConnection, hc]
      omega

/-- C5 witness: the theorem applied to a server that is at its cap of one
connection. -/
theorem capacity_reject_and_connection_bound_witness :
    handleConnection fullServer "c2" =
      { server := fullServer, rejectReason := some "Server at maximum capacity",
        closeCode := some 1013 } ∧
    (handleConnection fullServer "c2").server.clients.length ≤ 1 :=
  ⟨(capacity_reject_and_connection_bound fullServer "c2").1 (by decide),
   (capacity_reject_and_connection_bound fullServer "c2").2 (by decide)⟩

/-- C6, code divergence: every start() call fails (the mis-typed handler
chain throws before either server starts) and the stop() invoked on the
failure path rolls back nothing: because isRunning is only set at the very
end of start(), stop() hits its early return, so applied to a state in which
the WebSocket server is listening but isRunning is still false it leaves the
server listening and the timer installed.  stop() is idempotent. -/
theorem failed_start_rollback_is_noop :
    (∀ env : StartEnv,
      startService env initSyncState =
        (initSyncState,
         .error (if env.wsPortFound && env.discoveryPortFound then
                   "TypeError: is not a function"
                 else "Unable to find available ports"))) ∧
    stopService { isRunning := false, wsListening := true,
                  discoveryListening := true, cleanupTimer := true } =
      { isRunning := false, wsListening := true,
        discoveryListening := true, cleanupTimer := true } ∧
    (∀ s : SyncState, stopService (stopService s) = stopService s) := by
  refine ⟨?_, by decide, ?_⟩
  · intro env
    obtain ⟨wp, dp⟩ := env
    cases wp <;> cases dp <;> decide
  · intro s
    obtain ⟨a, b, c, d⟩ := s
    cases a <;> simp [stopService]

/-- C7, counterexample: a handshake content with clientType "iOS" but no
version and no capabilities deserializes differently in the two encodings —
the nested payload encoding keeps "iOS", the top-level encoding discards it
and defaults everything to "visionOS"/"1.0.0"/[]. -/
theorem handshake_dual_format_counterexample :
    ((deserializeMessage 0 "r"
        (encodeHandshakeTopLevel 1 "m1"
          { clientType := some "iOS", version := none, capabilities := none })).toOption ==
      (deserializeMessage 0 "r"
        (encodeHandshakeNested 1 "m1"
          { clientType := some "iOS", version := none, capabilities := none })).toOption) = false ∧
    (deserializeMessage 0 "r"
        (encodeHandshakeTopLevel 1 "m1"
          { clientType := some "iOS", version := none, capabilities := none })).toOption.map
      (fun m => m.clientType) = some (some "visionOS") ∧
    (deserializeMessage 0 "r"
        (encodeHandshakeNested 1 "m1"
          { clientType := some "iOS", version := none, capabilities := none })).toOption.map
      (fun m => m.clientType) = some (some "iOS") := by
  decide

/-- C7, amended: the two encodings of a handshake content deserialize to the
identical in-memory form when the content either supplies all three fields
(with nonempty clientType and version) or supplies none of them; when only
some fields are present the top-level path discards them and applies all
defaults while the nested path keeps them. -/
theorem handshake_dual_format_agree_cases (now : Nat) (rand : String)
    (ts : Nat) (mid : String) (c : HandshakeContent)
    (h : (truthyStr c.clientType = true ∧ truthyStr c.version = true ∧
            c.capabilities.isSome = true) ∨
         (c.clientType = none ∧ c.version = none ∧ c.capabilities = none)) :
    deserializeMessage now rand (encodeHandshakeTopLevel ts mid c) =
      deserializeMessage now rand (encodeHandshakeNested ts mid c) := by
  obtain ⟨ct, v, caps⟩ := c
  rcases h with ⟨h1, h2, h3⟩ | ⟨h1, h2, h3⟩
  · cases ct with
    | none => simp [truthyStr] at h1
    | some a =>
      cases v with
      | none => simp [truthyStr] at h2
      | some b =>
        cases caps with
        | none => simp at h3
        | some l =>
          have ha : a ≠ "" := by simpa [truthyStr] using h1
          have hb : b ≠ "" := by simpa [truthyStr] using h2
          by_cases hts : ts = 0 <;> by_cases hmid : mid = "" <;>
            simp [deserializeMessage, normalizeBase, encodeHandshakeTopLevel,
              encodeHandshakeNested, truthyStr, truthyNum, jsOrStr, knownType,
              messageTypeStrings, backfillId, hts, hmid, ha, hb]
  · subst h1; subst h2; subst h3
    by_cases hts : ts = 0 <;> by_cases hmid : mid = "" <;>
      simp [deserializeMessage, normalizeBase, encodeHandshakeTopLevel,
        encodeHandshakeNested, truthyStr, truthyNum, jsOrStr, knownType,
        messageTypeStrings, backfillId, hts, hmid]

/-- C7 witness: the amended theorem applied to an all-fields-present content. -/
theorem handshake_dual_format_agree_cases_witness :
    deserializeMessage 3 "r"
      (encodeHandshakeTopLevel 1 "m1"
        { clientType := some "iOS", version := some "2.0", capabilities := some ["cap"] }) =
    deserializeMessage 3 "r"
      (encodeHandshakeNested 1 "m1"
        { clientType := some "iOS", version := some "2.0", capabilities := some ["cap"] }) :=
  handshake_dual_format_agree_cases 3 "r" 1 "m1"
    { clientType := some "iOS", version := some "2.0", capabilities := some ["cap"] }
    (Or.inl (by decide))

/-- C8, counterexample: the id back-filled for an Echo frame that arrives
without one is the template string "visionOS-5-abc", which is not a UUID
(the format predicate holds of a genuine randomUUID output but not of the
back-filled id). -/
theorem backfilled_id_not_uuid :
    (deserializeMessage 5 "abc" echoNoId).toOption.bind (fun m => m.id) =
      some "visionOS-5-abc" ∧
    specUUIDFormat "visionOS-5-abc" = false ∧
    specUUIDFormat "123e4567-e89b-12d3-a456-426614174000" = true := by
  decide

/-- After base normalization the timestamp is truthy (given a nonzero
clock). -/
theorem normalizeBase_timestamp_truthy (now : Nat) (rand : String)
    (m : RawMessage) (hnow : 0 < now) :
    truthyNum (normalizeBase now rand m).timestamp = true := by
  unfold normalizeBase
  by_cases h1 : truthyNum m.timestamp
  · by_cases h2 : truthyStr m.id <;> simp [h1, h2]
  · have hs : truthyNum (some now) = true := by
      simp [truthyNum]
      omega
    by_cases h2 : truthyStr m.id <;> simp [h1, h2, hs]

/-- After base normalization the id is truthy. -/
theorem normalizeBase_id_truthy (now : Nat) (rand : String) (m : RawMessage) :
    truthyStr (normalizeBase now rand m).id = true := by
  unfold normalizeBase
  by_cases h1 : truthyNum m.timestamp <;>
    by_cases h2 : truthyStr (if truthyNum m.timestamp then m
        else { m with timestamp := some now }).id <;>
    simp_all [truthyStr, backfillId_ne_empty]

/-- C8, amended: the enhanced deserializeMessage tolerates a missing
timestamp or id on any known-typed inbound message and back-fills them (the
wall clock for the timestamp, the generated "visionOS-now-rand" string —
not a UUID — for the id), so that after normalization both fields are
populated. -/
theorem deserialize_backfills_missing_fields (now : Nat) (rand : String)
    (m : RawMessage) (htype : truthyStr m.type = true)
    (hknown : knownType (m.type.getD "") = true) (hnow : 0 < now) :
    ∃ m2, deserializeMessage now rand m = .ok m2 ∧
      truthyNum m2.timestamp = true ∧ truthyStr m2.id = true := by
  have ht := normalizeBase_timestamp_truthy now rand m hnow
  have hi := normalizeBase_id_truthy now rand m
  unfold deserializeMessage
  simp only [htype, hknown, not_true, Bool.not_eq_true, if_false]
  generalize hmb : normalizeBase now rand m = m2 at ht hi
  by_cases hch : m2.type = some "ClientHandshake"
  · simp only [hch, if_true]
    cases hp : m2.payload with
    | some p =>
      exact ⟨_, rfl, ht, hi⟩
    | none =>
      by_cases htl : truthyStr m2.clientType && truthyStr m2.version &&
          m2.capabilities.isSome
      · simp only [htl, if_true]
        exact ⟨m2, rfl, ht, hi⟩
      · simp only [htl, if_false]
        exact ⟨_, rfl, ht, hi⟩
  · simp only [hch, if_false]
    by_cases hai : m2.type = some "AIConversation"
    · simp only [hai, if_true]
      cases hp : m2.payload with
      | some p =>
        cases hb : truthyStr p.session_id && !truthyStr p.sessionId
        · refine ⟨m2, ?_, ht, hi⟩
          simp [hb]
        · refine ⟨{ m2 with payload := some { p with sessionId := p.session_id } }, ?_, ht, hi⟩
          simp [hb, hai]
      | none =>
        exact ⟨m2, rfl, ht, hi⟩
    · simp only [hai, if_false]
      exact ⟨m2, rfl, ht, hi⟩

/-- C8 witness: the amended theorem applied to the Echo frame with no id. -/
theorem deserialize_backfills_missing_fields_witness :
    ∃ m2, deserializeMessage 5 "abc" echoNoId = .ok m2 ∧
      truthyNum m2.timestamp = true ∧ truthyStr m2.id = true :=
  deserialize_backfills_missing_fields 5 "abc" echoNoId (by decide) (by decide)
    (by decide)

/-- C9, counterexample: broadcast does not restrict itself to connections
whose handshake completed — a tracked connection still in state Connecting but
with an open socket receives the broadcast. -/
theorem broadcast_reaches_non_connected :
    connectingOnlyServer.clients.map (fun c => c.connState) = [.connecting] ∧
    broadcastRecipients connectingOnlyServer = ["c1"] ∧
    broadcast connectingOnlyServer = 1 := by
  decide

/-- C9, amended: sendMessage succeeds exactly on a present connection whose
socket is OPEN (so it returns false whenever the connection is absent or not
OPEN, true otherwise), and broadcast reaches exactly the open-socket
connections regardless of their handshake state, counting them. -/
theorem sendMessage_and_broadcast_open_socket (s : WSServerState)
    (hnd : (s.clients.map (fun c => c.id)).Nodup) :
    (∀ cid : String,
      sendMessage s cid = true ↔
        ∃ c, s.clients.find? (fun x => x.id = cid) = some c ∧ c.socketOpen = true) ∧
    broadcastRecipients s = (s.clients.filter (fun c => c.socketOpen)).map (fun c => c.id) ∧
    broadcast s = (s.clients.filter (fun c => c.socketOpen)).length := by
  have hsend : ∀ c ∈ s.clients, sendMessage s c.id = c.socketOpen := by
    intro c hc
    unfold sendMessage
    rw [find_id_of_mem_nodup s.clients c hc hnd]
  refine ⟨?_, ?_, ?_⟩
  · intro cid
    unfold sendMessage
    cases h : s.clients.find? (fun x => x.id = cid) with
    | none => simp
    | some c => simp
  · unfold broadcastRecipients
    congr 1
    apply List.filter_congr
    intro c hc
    rw [hsend c hc]
  · unfold broadcast
    rw [foldl_count (fun c => sendMessage s c.id) s.clients 0]
    simp only [Nat.zero_add]
    congr 1
    apply List.filter_congr
    intro c hc
    rw [hsend c hc]

/-- C9 witness: the amended theorem applied to the one-connecting-client
server: its open-socket connection is reached. -/
theorem sendMessage_and_broadcast_open_socket_witness :
    broadcastRecipients connectingOnlyServer =
      (connectingOnlyServer.clients.filter (fun c => c.socketOpen)).map (fun c => c.id) ∧
    broadcast connectingOnlyServer =
      (connectingOnlyServer.clients.filter (fun c => c.socketOpen)).length :=
  ⟨(sendMessage_and_broadcast_open_socket connectingOnlyServer (by decide)).2.1,
   (sendMessage_and_broadcast_open_socket connectingOnlyServer (by decide)).2.2⟩

/-- C10: a required field that is present but falsy fails validation — an
Echo with empty payload.message, an AIConversation with empty
payload.content, and any message with timestamp zero are all classified
invalid by both validators, and the connection handler drops each such frame
with an ERROR event. -/
theorem validateMessage_rejects_falsy_fields :
    validateMessage echoEmpty = false ∧
    validateMessageLegacy echoEmpty = false ∧
    validateMessage aiEmptyContent = false ∧
    validateMessageLegacy aiEmptyContent = false ∧
    (∀ m : RawMessage, m.timestamp = some 0 →
      validateMessage m = false ∧ validateMessageLegacy m = false) ∧
    serverHandleMessage echoEmpty = [.errorEvent] ∧
    serverHandleMessage aiEmptyContent = [.errorEvent] ∧
    serverHandleMessage tsZeroPing = [.errorEvent] := by
  refine ⟨by decide, by decide, by decide, by decide, ?_, by decide, by decide, by decide⟩
  intro m h
  constructor
  · simp [validateMessage, h, truthyNum]
  · simp [validateMessageLegacy, h, truthyNum]

/-- C10 witness: the universal timestamp-zero conjunct applied to the
concrete Ping frame with timestamp zero. -/
theorem validateMessage_rejects_falsy_fields_witness :
    validateMessage tsZeroPing = false ∧ validateMessageLegacy tsZeroPing = false :=
  validateMessage_rejects_falsy_fields.2.2.2.2.1 tsZeroPing rfl

end VisionSync
